import Mathlib

/-!
Shallow embedding of `bot.py`: a YouTube-feed-to-X posting pipeline.

External calls (feed, transcript backend, generative model, posting API,
marker-file I/O) are modelled by an environment of oracles; `main` is a pure
function of that environment returning the process outcome, the final content
of the marker file, and a trace of the external calls it made. An exception
escaping `main` (raised and never caught) is modelled as `Except.error`, which
in the real program is a traceback and a nonzero process exit.
-/

namespace YoutubeXBot

/-- Python string slicing `s[:n]`: the first `n` characters (code points). -/
def pySlice (s : String) (n : Nat) : String := ⟨s.data.take n⟩

/-- Python `str.strip()`: remove leading and trailing whitespace. -/
def pyStrip (s : String) : String :=
  ⟨(((s.data.dropWhile Char.isWhitespace).reverse.dropWhile Char.isWhitespace).reverse)⟩

/-- A feed entry as `main` accesses it: `yt_videoid`, `title`, `link`, and
`summary` (the feed's description field). -/
structure Entry where
  yt_videoid : String
  title : String
  link : String
  summary : String
deriving Repr, DecidableEq

/-- Observable external calls made during a run. -/
inductive Event where
  | transcript_attempt (video_id : String) (languages : List String)
  | summarize (content : String) (title : String)
  | publish (text : String) (link : String)
  | create_tweet_call (content : String)
  | marker_write (id : String)
deriving Repr, DecidableEq

/-- Oracles for the external world during one run.
`markerFile` is the content of `last_video_id.txt` (`none` if absent).
`hasGetTranscript` models `hasattr(YouTubeTranscriptApi, 'get_transcript')`;
both transcript oracles return the caption snippets or a raised exception.
`geminiKey` is `GEMINI_API_KEY`; `twitterKeys` is whether all four Twitter
credentials are present and non-empty; `markerWriteOk` is whether opening and
writing the marker file succeeds (on failure the open raises before the file
is modified). -/
structure Env where
  entries : List Entry
  markerFile : Option String
  hasGetTranscript : Bool
  get_transcript : String → List String → Except String (List String)
  fetch : String → List String → Except String (List String)
  geminiKey : Option String
  generate_content : String → Except String String
  twitterKeys : Bool
  create_tweet : String → Except String String
  markerWriteOk : Bool

/-- `TextFormatter().format_transcript`: flatten snippets to plain text. -/
def format_transcript (snippets : List String) : String :=
  String.intercalate "\n" snippets

/-- `get_last_processed_video_id`: read the marker file and strip it;
`None` when the file does not exist. -/
def get_last_processed_video_id (markerFile : Option String) : Option String :=
  markerFile.map pyStrip

/-- `save_last_processed_video_id` on a successful write: the file afterwards
holds exactly `video_id`. -/
def save_last_processed_video_id (video_id : String) : Option String :=
  some video_id

/-- The single transcript-backend call `get_video_transcript` makes: either
convention, same `video_id` and `languages`. -/
def transcriptBackend (env : Env) (video_id : String) (languages : List String) :
    Except String (List String) :=
  if env.hasGetTranscript then env.get_transcript video_id languages
  else env.fetch video_id languages

/-- `get_video_transcript`: one attempt with `languages=['ko']`; any exception
is printed and collapsed to `none`. Returns the result and the trace of
backend attempts. -/
def get_video_transcript (env : Env) (video_id : String) :
    Option String × List Event :=
  match transcriptBackend env video_id ["ko"] with
  | Except.error _ => (none, [Event.transcript_attempt video_id ["ko"]])
  | Except.ok transcript =>
      (some (format_transcript transcript), [Event.transcript_attempt video_id ["ko"]])

def gemini_prompt_before_title : String :=
  "\n    당신은 인기 있는 소셜 미디어 인플루언서입니다. \n    아래는 유튜브 영상 \""

def gemini_prompt_after_title : String :=
  "\"의 자막(또는 내용)입니다.\n    이 내용을 바탕으로 X(구 트위터)에 올릴 매력적이고 핵심적인 요약글을 작성해주세요.\n    \n    조건:\n    1. 한국어로 작성하세요.\n    2. 핵심 내용을 3~5줄 내외로 요약하세요.\n    3. 문체는 친근하고 매력적으로 (\"해요\"체 등).\n    4. 해시태그를 2~3개 포함하세요.\n    5. 전체 길이는 250자를 넘지 않도록 주의하세요 (링크 제외).\n    \n    내용:\n    "

/-- The f-string prompt of `summarize_with_gemini`. The trailing
`  # Limit ...` text sits inside the triple-quoted f-string literal, so it is
part of the prompt, followed by the final newline and indentation. -/
def gemini_prompt (text video_title : String) : String :=
  gemini_prompt_before_title ++ video_title ++ gemini_prompt_after_title ++
    pySlice text 10000 ++
    "  # Limit input text length to avoid token limits if necessary" ++ "\n    "

/-- `summarize_with_gemini`: raises when `GEMINI_API_KEY` is unset or empty
(falsy), otherwise sends the prompt; a backend exception propagates. -/
def summarize_with_gemini (env : Env) (text video_title : String) :
    Except String String :=
  match env.geminiKey with
  | none => Except.error "GEMINI_API_KEY is not set."
  | some k =>
      if k = "" then Except.error "GEMINI_API_KEY is not set."
      else env.generate_content (gemini_prompt text video_title)

/-- The tweet content built by `post_to_twitter`. -/
def tweet_content (text video_link : String) : String :=
  text ++ "\n\n" ++ video_link

/-- `post_to_twitter`: raises (`Except.error`) when the Twitter credentials
are missing — this `ValueError` is thrown before the try block; otherwise it
submits `text\n\nlink` and catches any API exception, returning `True` on
success and `False` on a caught failure. Also returns its call trace. -/
def post_to_twitter (env : Env) (text video_link : String) :
    Except String Bool × List Event :=
  if env.twitterKeys = false then
    (Except.error "Twitter API keys are missing.", [])
  else
    match env.create_tweet (tweet_content text video_link) with
    | Except.ok _ => (Except.ok true, [Event.create_tweet_call (tweet_content text video_link)])
    | Except.error _ => (Except.ok false, [Event.create_tweet_call (tweet_content text video_link)])

/-- The content `main` passes to the summarizer: the transcript if it is
truthy (present and non-empty), else the title/description fallback, since
`if not transcript:` also fires on the empty string. -/
def content_to_summarize (env : Env) (e : Entry) : String :=
  match (get_video_transcript env e.yt_videoid).1 with
  | none => "제목: " ++ e.title ++ "\n\n설명: " ++ e.summary
  | some t =>
      if t = "" then "제목: " ++ e.title ++ "\n\n설명: " ++ e.summary else t

/-- Uncaught exceptions that can escape `main`. -/
inductive RunError where
  | twitterKeysMissing
  | markerWriteFailed
deriving Repr, DecidableEq

/-- Outcome of one run: the process result (`Except.error` = uncaught
exception, nonzero exit), the marker file afterwards, and the call trace. -/
structure RunResult where
  exit : Except RunError Unit
  markerFile : Option String
  events : List Event
deriving Repr

/-- `main`: the orchestrator. Empty feed → exit. Newest id equals the stripped
marker → exit. Otherwise fetch the transcript, summarize (exceptions caught:
run ends, marker untouched), then post; on posting success write the marker
(an I/O failure there raises uncaught), on posting failure end without
writing. A missing-Twitter-credentials `ValueError` from `post_to_twitter`
is not caught by `main`. -/
def main (env : Env) : RunResult :=
  match env.entries with
  | [] => ⟨Except.ok (), env.markerFile, []⟩
  | e :: _ =>
    if get_last_processed_video_id env.markerFile = some e.yt_videoid then
      ⟨Except.ok (), env.markerFile, []⟩
    else
      let events₁ := (get_video_transcript env e.yt_videoid).2 ++
        [Event.summarize (content_to_summarize env e) e.title]
      match summarize_with_gemini env (content_to_summarize env e) e.title with
      | Except.error _ => ⟨Except.ok (), env.markerFile, events₁⟩
      | Except.ok summary =>
        let events₂ := events₁ ++ [Event.publish summary e.link]
        match post_to_twitter env summary e.link with
        | (Except.error _, evs) =>
            ⟨Except.error RunError.twitterKeysMissing, env.markerFile, events₂ ++ evs⟩
        | (Except.ok true, evs) =>
            if env.markerWriteOk then
              ⟨Except.ok (), save_last_processed_video_id e.yt_videoid,
                events₂ ++ evs ++ [Event.marker_write e.yt_videoid]⟩
            else
              ⟨Except.error RunError.markerWriteFailed, env.markerFile, events₂ ++ evs⟩
        | (Except.ok false, evs) => ⟨Except.ok (), env.markerFile, events₂ ++ evs⟩

/-! ### Branch characterizations of `main` (shared helper lemmas) -/

/-- The call trace up to and including the summarizer invocation. -/
def eventsToSummarize (env : Env) (e : Entry) : List Event :=
  (get_video_transcript env e.yt_videoid).2 ++
    [Event.summarize (content_to_summarize env e) e.title]

theorem main_nil (env : Env) (h : env.entries = []) :
    main env = ⟨Except.ok (), env.markerFile, []⟩ := by
  simp [main, h]

theorem main_already (env : Env) (e : Entry) (rest : List Entry)
    (hfeed : env.entries = e :: rest)
    (heq : get_last_processed_video_id env.markerFile = some e.yt_videoid) :
    main env = ⟨Except.ok (), env.markerFile, []⟩ := by
  simp [main, hfeed, heq]

theorem main_sum_err (env : Env) (e : Entry) (rest : List Entry) (msg : String)
    (hfeed : env.entries = e :: rest)
    (hnew : ¬ get_last_processed_video_id env.markerFile = some e.yt_videoid)
    (hsum : summarize_with_gemini env (content_to_summarize env e) e.title =
      Except.error msg) :
    main env = ⟨Except.ok (), env.markerFile, eventsToSummarize env e⟩ := by
  simp [main, hfeed, hnew, hsum, eventsToSummarize]

theorem main_publish_raises (env : Env) (e : Entry) (rest : List Entry)
    (s msg : String)
    (hfeed : env.entries = e :: rest)
    (hnew : ¬ get_last_processed_video_id env.markerFile = some e.yt_videoid)
    (hsum : summarize_with_gemini env (content_to_summarize env e) e.title =
      Except.ok s)
    (hpost : (post_to_twitter env s e.link).1 = Except.error msg) :
    main env = ⟨Except.error RunError.twitterKeysMissing, env.markerFile,
      eventsToSummarize env e ++ [Event.publish s e.link] ++
        (post_to_twitter env s e.link).2⟩ := by
  rcases hp : post_to_twitter env s e.link with ⟨r, evs⟩
  rw [hp] at hpost
  simp only at hpost
  subst hpost
  simp [main, hfeed, hnew, hsum, hp, eventsToSummarize]

theorem main_publish_false (env : Env) (e : Entry) (rest : List Entry)
    (s : String)
    (hfeed : env.entries = e :: rest)
    (hnew : ¬ get_last_processed_video_id env.markerFile = some e.yt_videoid)
    (hsum : summarize_with_gemini env (content_to_summarize env e) e.title =
      Except.ok s)
    (hpost : (post_to_twitter env s e.link).1 = Except.ok false) :
    main env = ⟨Except.ok (), env.markerFile,
      eventsToSummarize env e ++ [Event.publish s e.link] ++
        (post_to_twitter env s e.link).2⟩ := by
  rcases hp : post_to_twitter env s e.link with ⟨r, evs⟩
  rw [hp] at hpost
  simp only at hpost
  subst hpost
  simp [main, hfeed, hnew, hsum, hp, eventsToSummarize]

theorem main_publish_true_write (env : Env) (e : Entry) (rest : List Entry)
    (s : String)
    (hfeed : env.entries = e :: rest)
    (hnew : ¬ get_last_processed_video_id env.markerFile = some e.yt_videoid)
    (hsum : summarize_with_gemini env (content_to_summarize env e) e.title =
      Except.ok s)
    (hpost : (post_to_twitter env s e.link).1 = Except.ok true)
    (hw : env.markerWriteOk = true) :
    main env = ⟨Except.ok (), save_last_processed_video_id e.yt_videoid,
      eventsToSummarize env e ++ [Event.publish s e.link] ++
        (post_to_twitter env s e.link).2 ++ [Event.marker_write e.yt_videoid]⟩ := by
  rcases hp : post_to_twitter env s e.link with ⟨r, evs⟩
  rw [hp] at hpost
  simp only at hpost
  subst hpost
  simp [main, hfeed, hnew, hsum, hp, hw, eventsToSummarize]

theorem main_publish_true_write_fails (env : Env) (e : Entry) (rest : List Entry)
    (s : String)
    (hfeed : env.entries = e :: rest)
    (hnew : ¬ get_last_processed_video_id env.markerFile = some e.yt_videoid)
    (hsum : summarize_with_gemini env (content_to_summarize env e) e.title =
      Except.ok s)
    (hpost : (post_to_twitter env s e.link).1 = Except.ok true)
    (hw : env.markerWriteOk = false) :
    main env = ⟨Except.error RunError.markerWriteFailed, env.markerFile,
      eventsToSummarize env e ++ [Event.publish s e.link] ++
        (post_to_twitter env s e.link).2⟩ := by
  rcases hp : post_to_twitter env s e.link with ⟨r, evs⟩
  rw [hp] at hpost
  simp only at hpost
  subst hpost
  simp [main, hfeed, hnew, hsum, hp, hw, eventsToSummarize]

/-- The transcript fetcher records exactly one backend attempt, always with
`languages=['ko']`. -/
theorem gvt_events (env : Env) (video_id : String) :
    (get_video_transcript env video_id).2 =
      [Event.transcript_attempt video_id ["ko"]] := by
  unfold get_video_transcript
  rcases transcriptBackend env video_id ["ko"] <;> rfl

/-- With the Twitter credentials present, `post_to_twitter` returns a boolean
rather than raising. -/
theorem post_to_twitter_keys_true (env : Env) (t l : String)
    (hk : env.twitterKeys = true) :
    (post_to_twitter env t l).1 = Except.ok true ∨
      (post_to_twitter env t l).1 = Except.ok false := by
  unfold post_to_twitter
  rw [hk]
  rcases h : env.create_tweet (tweet_content t l) with msg | tid <;> simp [h]

/-- `post_to_twitter` raises only when the Twitter credentials are missing. -/
theorem post_to_twitter_error_keys (env : Env) (t l msg : String)
    (h : (post_to_twitter env t l).1 = Except.error msg) :
    env.twitterKeys = false := by
  cases hk : env.twitterKeys with
  | false => rfl
  | true =>
    exfalso
    rcases post_to_twitter_keys_true env t l hk with h1 | h1 <;>
      rw [h] at h1 <;> exact Except.noConfusion h1

/-! ### Sample environments for concrete runs -/

/-- The entry of the spec's concrete run. -/
def sampleEntry : Entry :=
  { yt_videoid := "xyz789", title := "Test Video",
    link := "https://youtu.be/xyz789", summary := "desc text" }

/-- The spec's concrete run: marker `"abc123"`, transcript unavailable,
summarizer returns the sample summary, posting succeeds, marker write ok. -/
def baseEnv : Env :=
  { entries := [sampleEntry]
    markerFile := some "abc123"
    hasGetTranscript := true
    get_transcript := fun _ _ => Except.error "Could not retrieve a transcript"
    fetch := fun _ _ => Except.error "Could not retrieve a transcript"
    geminiKey := some "test-key"
    generate_content := fun _ => Except.ok "요약 텍스트 #tag1 #tag2"
    twitterKeys := true
    create_tweet := fun _ => Except.ok "1906"
    markerWriteOk := true }

/-- `baseEnv` with a summarizer backend that raises. -/
def envSumFail : Env :=
  { baseEnv with generate_content := fun _ => Except.error "API error" }

/-- `baseEnv` with a marker-file write that raises an I/O error. -/
def envWriteFail : Env :=
  { baseEnv with markerWriteOk := false }

/-- `baseEnv` with the Twitter credentials missing. -/
def envNoKeys : Env :=
  { baseEnv with twitterKeys := false }

/-! ### Claim theorems -/

/-- C2: in a run where the feed's newest entry id equals the persisted marker
read at the start of the run, `main` exits normally having made no external
calls at all (so in particular no summarizer and no publisher call), and the
marker file is unchanged. -/
theorem already_processed_frame (env : Env) (e : Entry) (rest : List Entry)
    (hfeed : env.entries = e :: rest)
    (heq : get_last_processed_video_id env.markerFile = some e.yt_videoid) :
    (main env).markerFile = env.markerFile ∧
    (main env).events = [] ∧
    (main env).exit = Except.ok () := by
  rw [main_already env e rest hfeed heq]
  exact ⟨rfl, rfl, rfl⟩

/-- Witness for C2: the spec's second concrete run, marker already `"xyz789"`. -/
theorem already_processed_frame_witness :
    (main { baseEnv with markerFile := some "xyz789" }).markerFile =
      ({ baseEnv with markerFile := some "xyz789" } : Env).markerFile ∧
    (main { baseEnv with markerFile := some "xyz789" }).events = [] ∧
    (main { baseEnv with markerFile := some "xyz789" }).exit = Except.ok () :=
  already_processed_frame { baseEnv with markerFile := some "xyz789" }
    sampleEntry [] rfl (by decide)

/-- C6: in a run where the summarizer call fails (raises), `main` terminates
normally, the marker file is unchanged, and the trace shows only the
transcript attempt and the summarizer invocation — no publisher call and no
marker write. -/
theorem summarize_failure_frame (env : Env) (e : Entry) (rest : List Entry)
    (msg : String)
    (hfeed : env.entries = e :: rest)
    (hnew : ¬ get_last_processed_video_id env.markerFile = some e.yt_videoid)
    (hsum : summarize_with_gemini env (content_to_summarize env e) e.title =
      Except.error msg) :
    (main env).exit = Except.ok () ∧
    (main env).markerFile = env.markerFile ∧
    (main env).events = [Event.transcript_attempt e.yt_videoid ["ko"],
      Event.summarize (content_to_summarize env e) e.title] := by
  rw [main_sum_err env e rest msg hfeed hnew hsum]
  refine ⟨rfl, rfl, ?_⟩
  simp [eventsToSummarize, gvt_events]

/-- Witness for C6: the concrete run whose summarizer backend raises. -/
theorem summarize_failure_frame_witness :
    (main envSumFail).exit = Except.ok () ∧
    (main envSumFail).markerFile = envSumFail.markerFile ∧
    (main envSumFail).events =
      [Event.transcript_attempt sampleEntry.yt_videoid ["ko"],
       Event.summarize (content_to_summarize envSumFail sampleEntry)
         sampleEntry.title] :=
  summarize_failure_frame envSumFail sampleEntry [] "API error" rfl
    (by decide) rfl

/-- C7: for every video id, `get_video_transcript` makes exactly one backend
attempt, against the `['ko']` caption track; it is a total function (never
raises), and a backend failure of any kind collapses to the absence result
`none`, with no retry; a backend success yields the formatted transcript. -/
theorem transcript_one_attempt (env : Env) (video_id : String) :
    (get_video_transcript env video_id).2 =
      [Event.transcript_attempt video_id ["ko"]] ∧
    (∀ msg, transcriptBackend env video_id ["ko"] = Except.error msg →
      (get_video_transcript env video_id).1 = none) ∧
    (∀ snips, transcriptBackend env video_id ["ko"] = Except.ok snips →
      (get_video_transcript env video_id).1 = some (format_transcript snips)) := by
  refine ⟨gvt_events env video_id, ?_, ?_⟩
  · intro msg h
    unfold get_video_transcript
    rw [h]
  · intro snips h
    unfold get_video_transcript
    rw [h]

/-- Witness for C7: the concrete environment whose transcript backend raises;
one `['ko']` attempt is traced and the result is absence. -/
theorem transcript_one_attempt_witness :
    (get_video_transcript baseEnv "xyz789").2 =
      [Event.transcript_attempt "xyz789" ["ko"]] ∧
    (get_video_transcript baseEnv "xyz789").1 = none :=
  ⟨(transcript_one_attempt baseEnv "xyz789").1,
   (transcript_one_attempt baseEnv "xyz789").2.1
     "Could not retrieve a transcript" rfl⟩

/-- Once past the new-video check, the trace up to the summarizer invocation
is a prefix of the run's trace, whatever happens afterwards. -/
theorem main_events_prefix (env : Env) (e : Entry) (rest : List Entry)
    (hfeed : env.entries = e :: rest)
    (hnew : ¬ get_last_processed_video_id env.markerFile = some e.yt_videoid) :
    ∃ tail, (main env).events = eventsToSummarize env e ++ tail := by
  rcases hs : summarize_with_gemini env (content_to_summarize env e) e.title
    with msg | s
  · refine ⟨[], ?_⟩
    rw [main_sum_err env e rest msg hfeed hnew hs]
    simp
  · rcases hp : (post_to_twitter env s e.link).1 with msg | b
    · refine ⟨[Event.publish s e.link] ++ (post_to_twitter env s e.link).2, ?_⟩
      rw [main_publish_raises env e rest s msg hfeed hnew hs hp]
      simp
    · cases b
      · refine ⟨[Event.publish s e.link] ++ (post_to_twitter env s e.link).2, ?_⟩
        rw [main_publish_false env e rest s hfeed hnew hs hp]
        simp
      · cases hw : env.markerWriteOk
        · refine ⟨[Event.publish s e.link] ++ (post_to_twitter env s e.link).2, ?_⟩
          rw [main_publish_true_write_fails env e rest s hfeed hnew hs hp hw]
          simp
        · refine ⟨[Event.publish s e.link] ++ (post_to_twitter env s e.link).2 ++
            [Event.marker_write e.yt_videoid], ?_⟩
          rw [main_publish_true_write env e rest s hfeed hnew hs hp hw]
          simp

/-- C3 counterexample: in the concrete run with transcript absence, title
`"Test Video"` and description `"desc text"`, the content handed to the
summarizer is the Korean composition `"제목: …\n\n설명: …"`, which is not the
English composition `"title: …\n\ndescription: …"` stated by the claim; the
full trace shows no call with the English composition. -/
theorem fallback_not_english_cex :
    content_to_summarize envSumFail sampleEntry =
      "제목: Test Video\n\n설명: desc text" ∧
    (main envSumFail).events = [Event.transcript_attempt "xyz789" ["ko"],
      Event.summarize "제목: Test Video\n\n설명: desc text" "Test Video"] ∧
    "제목: Test Video\n\n설명: desc text" ≠
      "title: Test Video\n\ndescription: desc text" := by
  refine ⟨rfl, rfl, by decide⟩

/-- C3 amended: in every run where the transcript fetch returns absence, the
content passed to the summarizer is, verbatim,
`"제목: <title>\n\n설명: <description>"` built from the newest entry's title
and description. -/
theorem fallback_content (env : Env) (e : Entry) (rest : List Entry)
    (hfeed : env.entries = e :: rest)
    (hnew : ¬ get_last_processed_video_id env.markerFile = some e.yt_videoid)
    (htr : (get_video_transcript env e.yt_videoid).1 = none) :
    content_to_summarize env e =
      "제목: " ++ e.title ++ "\n\n설명: " ++ e.summary ∧
    Event.summarize ("제목: " ++ e.title ++ "\n\n설명: " ++ e.summary) e.title ∈
      (main env).events := by
  have hc : content_to_summarize env e =
      "제목: " ++ e.title ++ "\n\n설명: " ++ e.summary := by
    unfold content_to_summarize
    rw [htr]
  refine ⟨hc, ?_⟩
  obtain ⟨tail, ht⟩ := main_events_prefix env e rest hfeed hnew
  rw [ht, eventsToSummarize, hc]
  simp

/-- Witness for C3's amended claim: the concrete transcript-absent run. -/
theorem fallback_content_witness :
    content_to_summarize envSumFail sampleEntry =
      "제목: " ++ sampleEntry.title ++ "\n\n설명: " ++ sampleEntry.summary ∧
    Event.summarize
        ("제목: " ++ sampleEntry.title ++ "\n\n설명: " ++ sampleEntry.summary)
        sampleEntry.title ∈ (main envSumFail).events :=
  fallback_content envSumFail sampleEntry [] rfl (by decide) rfl

/-- C5: the spec's concrete run. Marker `"abc123"`, newest entry `"xyz789"`
with title `"Test Video"`, link `"https://youtu.be/xyz789"`, description
`"desc text"`, transcript absent: the summarizer is invoked with content
`"제목: Test Video\n\n설명: desc text"`; it returns
`"요약 텍스트 #tag1 #tag2"`, so the publisher submits
`"요약 텍스트 #tag1 #tag2\n\nhttps://youtu.be/xyz789"`; posting succeeds and
the marker file afterwards contains exactly `"xyz789"`. -/
theorem concrete_run :
    (main baseEnv).events = [
      Event.transcript_attempt "xyz789" ["ko"],
      Event.summarize "제목: Test Video\n\n설명: desc text" "Test Video",
      Event.publish "요약 텍스트 #tag1 #tag2" "https://youtu.be/xyz789",
      Event.create_tweet_call "요약 텍스트 #tag1 #tag2\n\nhttps://youtu.be/xyz789",
      Event.marker_write "xyz789"] ∧
    (main baseEnv).markerFile = some "xyz789" ∧
    (main baseEnv).exit = Except.ok () :=
  ⟨rfl, rfl, rfl⟩

/-- C1 counterexample: a run in which the publish call succeeds but the
marker-file write raises an I/O error: afterwards the marker file still holds
`"abc123"`, not the newest video's id `"xyz789"`. -/
theorem marker_update_cex :
    (post_to_twitter envWriteFail "요약 텍스트 #tag1 #tag2"
      "https://youtu.be/xyz789").1 = Except.ok true ∧
    Event.create_tweet_call "요약 텍스트 #tag1 #tag2\n\nhttps://youtu.be/xyz789" ∈
      (main envWriteFail).events ∧
    (main envWriteFail).markerFile = some "abc123" ∧
    (some "abc123" : Option String) ≠ some "xyz789" := by
  refine ⟨rfl, by decide, rfl, by decide⟩

/-- C1 amended: past the new-video check with summary `s`, (i) publish success
with a succeeding marker write leaves the marker file holding exactly the
newest id; (ii) publish success with a failing marker write leaves the marker
unchanged and the error propagates; (iii, iv) publish failure — caught API
error or raised missing-credentials error — leaves the marker unchanged; and
(v) if the marker file changed at all, the publish call succeeded and the
write succeeded. -/
theorem marker_updated_iff (env : Env) (e : Entry) (rest : List Entry)
    (s : String)
    (hfeed : env.entries = e :: rest)
    (hnew : ¬ get_last_processed_video_id env.markerFile = some e.yt_videoid)
    (hsum : summarize_with_gemini env (content_to_summarize env e) e.title =
      Except.ok s) :
    ((post_to_twitter env s e.link).1 = Except.ok true →
      env.markerWriteOk = true → (main env).markerFile = some e.yt_videoid) ∧
    ((post_to_twitter env s e.link).1 = Except.ok true →
      env.markerWriteOk = false →
      (main env).markerFile = env.markerFile ∧
        (main env).exit = Except.error RunError.markerWriteFailed) ∧
    ((post_to_twitter env s e.link).1 = Except.ok false →
      (main env).markerFile = env.markerFile) ∧
    (∀ msg, (post_to_twitter env s e.link).1 = Except.error msg →
      (main env).markerFile = env.markerFile) ∧
    ((main env).markerFile ≠ env.markerFile →
      (main env).markerFile = some e.yt_videoid ∧ env.markerWriteOk = true ∧
        (post_to_twitter env s e.link).1 = Except.ok true) := by
  refine ⟨?_, ?_, ?_, ?_, ?_⟩
  · intro hp hw
    rw [main_publish_true_write env e rest s hfeed hnew hsum hp hw]
    rfl
  · intro hp hw
    rw [main_publish_true_write_fails env e rest s hfeed hnew hsum hp hw]
    exact ⟨rfl, rfl⟩
  · intro hp
    rw [main_publish_false env e rest s hfeed hnew hsum hp]
  · intro msg hp
    rw [main_publish_raises env e rest s msg hfeed hnew hsum hp]
  · intro hch
    rcases hp : (post_to_twitter env s e.link).1 with msg | b
    · have hu : (main env).markerFile = env.markerFile := by
        rw [main_publish_raises env e rest s msg hfeed hnew hsum hp]
      exact absurd hu hch
    · cases b
      · have hu : (main env).markerFile = env.markerFile := by
          rw [main_publish_false env e rest s hfeed hnew hsum hp]
        exact absurd hu hch
      · cases hw : env.markerWriteOk
        · have hu : (main env).markerFile = env.markerFile := by
            rw [main_publish_true_write_fails env e rest s hfeed hnew hsum hp hw]
          exact absurd hu hch
        · refine ⟨?_, rfl, rfl⟩
          rw [main_publish_true_write env e rest s hfeed hnew hsum hp hw]
          rfl

/-- Witness for C1's amended claim: the spec's concrete run updates the
marker to the newest id. -/
theorem marker_updated_iff_witness :
    (main baseEnv).markerFile = some sampleEntry.yt_videoid :=
  (marker_updated_iff baseEnv sampleEntry [] "요약 텍스트 #tag1 #tag2" rfl
    (by decide) rfl).1 rfl rfl

/-- C4 counterexample: two reachable runs in which the process does not
return success. With a failing marker write after a successful publish,
`main` raises the I/O error (nonzero exit); with missing Twitter
credentials, `main` raises the `ValueError` from `post_to_twitter`. -/
theorem exit_nonzero_cex :
    (main envWriteFail).exit = Except.error RunError.markerWriteFailed ∧
    (post_to_twitter envWriteFail "요약 텍스트 #tag1 #tag2"
      "https://youtu.be/xyz789").1 = Except.ok true ∧
    (main envNoKeys).exit = Except.error RunError.twitterKeysMissing :=
  ⟨rfl, rfl, rfl⟩

/-- C4 amended: errors from the transcript backend, the summarizer (including
a missing Gemini key) and the posting API are caught and reported, and on
every run where the Twitter credentials are present and the marker write
succeeds the process returns success; the only uncaught exceptions are the
missing-Twitter-credentials error and an I/O error while writing the marker
after a successful publish (which leaves the marker unchanged). -/
theorem run_exit_characterization (env : Env) :
    (env.twitterKeys = true → env.markerWriteOk = true →
      (main env).exit = Except.ok ()) ∧
    (∀ err, (main env).exit = Except.error err →
      (err = RunError.twitterKeysMissing ∧ env.twitterKeys = false) ∨
      (err = RunError.markerWriteFailed ∧ env.markerWriteOk = false ∧
        (main env).markerFile = env.markerFile)) := by
  constructor
  · intro hk hw
    rcases hfeed : env.entries with _ | ⟨e, rest⟩
    · rw [main_nil env hfeed]
    · by_cases heq : get_last_processed_video_id env.markerFile = some e.yt_videoid
      · rw [main_already env e rest hfeed heq]
      · rcases hs : summarize_with_gemini env (content_to_summarize env e) e.title
          with msg | s
        · rw [main_sum_err env e rest msg hfeed heq hs]
        · rcases post_to_twitter_keys_true env s e.link hk with hp | hp
          · rw [main_publish_true_write env e rest s hfeed heq hs hp hw]
          · rw [main_publish_false env e rest s hfeed heq hs hp]
  · intro err herr
    rcases hfeed : env.entries with _ | ⟨e, rest⟩
    · rw [main_nil env hfeed] at herr
      exact Except.noConfusion herr
    · by_cases heq : get_last_processed_video_id env.markerFile = some e.yt_videoid
      · rw [main_already env e rest hfeed heq] at herr
        exact Except.noConfusion herr
      · rcases hs : summarize_with_gemini env (content_to_summarize env e) e.title
          with msg | s
        · rw [main_sum_err env e rest msg hfeed heq hs] at herr
          exact Except.noConfusion herr
        · rcases hp : (post_to_twitter env s e.link).1 with msg | b
          · left
            have hr := main_publish_raises env e rest s msg hfeed heq hs hp
            rw [hr] at herr
            injection herr with h
            exact ⟨h.symm, post_to_twitter_error_keys env s e.link msg hp⟩
          · cases b
            · rw [main_publish_false env e rest s hfeed heq hs hp] at herr
              exact Except.noConfusion herr
            · cases hw : env.markerWriteOk
              · right
                have hr := main_publish_true_write_fails env e rest s hfeed heq hs hp hw
                rw [hr] at herr
                injection herr with h
                refine ⟨h.symm, rfl, ?_⟩
                rw [hr]
              · rw [main_publish_true_write env e rest s hfeed heq hs hp hw] at herr
                exact Except.noConfusion herr

/-- Witness for C4's amended claim: the spec's concrete run has a success
exit. -/
theorem run_exit_characterization_witness :
    (main baseEnv).exit = Except.ok () :=
  (run_exit_characterization baseEnv).1 rfl rfl

/-- C8: the prompt sent to the generative backend embeds exactly the first
10000 characters of the source text (Python `text[:10000]`), silently
dropping the rest; the embedded slice never exceeds 10000 characters, and for
source texts of at most 10000 characters it equals the source text. -/
theorem prompt_truncation (text title : String) :
    gemini_prompt text title =
      gemini_prompt_before_title ++ title ++ gemini_prompt_after_title ++
        pySlice text 10000 ++
        "  # Limit input text length to avoid token limits if necessary" ++
        "\n    " ∧
    (pySlice text 10000).length ≤ 10000 ∧
    (text.length ≤ 10000 → pySlice text 10000 = text) := by
  refine ⟨rfl, ?_, ?_⟩
  · show (text.data.take 10000).length ≤ 10000
    rw [List.length_take 10000 text.data]
    exact min_le_left _ _
  · intro h
    obtain ⟨l⟩ := text
    have h' : l.length ≤ 10000 := h
    show String.mk (l.take 10000) = String.mk l
    rw [List.take_of_length_le h']

/-- Witness for C8: a short source text is embedded whole. -/
theorem prompt_truncation_witness :
    gemini_prompt "short text" "T" =
      gemini_prompt_before_title ++ "T" ++ gemini_prompt_after_title ++
        pySlice "short text" 10000 ++
        "  # Limit input text length to avoid token limits if necessary" ++
        "\n    " ∧
    (pySlice "short text" 10000).length ≤ 10000 ∧
    pySlice "short text" 10000 = "short text" := by
  have h := prompt_truncation "short text" "T"
  exact ⟨h.1, h.2.1, h.2.2 (by decide)⟩

/-- C10: the inline `# Limit …` comment sits inside the triple-quoted
f-string, so the prompt contains, immediately after the truncated source
text, the literal characters
`"  # Limit input text length to avoid token limits if necessary"`
(followed by the f-string's closing newline and indentation), and that
literal occurs in the prompt sent to the backend. -/
theorem prompt_comment_literal (text title : String) :
    gemini_prompt text title =
      gemini_prompt_before_title ++ title ++ gemini_prompt_after_title ++
        (pySlice text 10000 ++
          ("  # Limit input text length to avoid token limits if necessary" ++
            "\n    ")) ∧
    "  # Limit input text length to avoid token limits if necessary".data <:+:
      (gemini_prompt text title).data := by
  constructor
  · simp [gemini_prompt, String.append_assoc]
  · refine ⟨(gemini_prompt_before_title ++ title ++ gemini_prompt_after_title ++
      pySlice text 10000).data, "\n    ".data, ?_⟩
    simp [gemini_prompt, String.data_append]

/-! ### State-store round trip -/

theorem dropWhile_eq_self_of_head (l : List Char)
    (h : ∀ c ∈ l.take 1, c.isWhitespace = false) :
    l.dropWhile Char.isWhitespace = l := by
  cases l with
  | nil => rfl
  | cons a t =>
    rw [List.dropWhile_cons]
    have ha : a.isWhitespace = false := h a (by simp)
    simp [ha]

theorem pyStrip_eq_self (s : String)
    (h1 : ∀ c ∈ s.data.take 1, c.isWhitespace = false)
    (h2 : ∀ c ∈ s.data.reverse.take 1, c.isWhitespace = false) :
    pyStrip s = s := by
  obtain ⟨l⟩ := s
  show String.mk _ = String.mk l
  rw [dropWhile_eq_self_of_head l h1, dropWhile_eq_self_of_head l.reverse h2,
    List.reverse_reverse]

/-- C9: writing the marker with `save_last_processed_video_id` and reading it
back with `get_last_processed_video_id` returns the id with leading and
trailing whitespace stripped (the read applies `.strip()`); for every id with
no leading or trailing whitespace the round trip returns the id itself. -/
theorem save_get_roundtrip (video_id : String) :
    get_last_processed_video_id (save_last_processed_video_id video_id) =
      some (pyStrip video_id) ∧
    ((∀ c ∈ video_id.data.take 1, c.isWhitespace = false) →
     (∀ c ∈ video_id.data.reverse.take 1, c.isWhitespace = false) →
      get_last_processed_video_id (save_last_processed_video_id video_id) =
        some video_id) := by
  refine ⟨rfl, ?_⟩
  intro h1 h2
  show some (pyStrip video_id) = some video_id
  rw [pyStrip_eq_self video_id h1 h2]

/-- Witness for C9: the round trip on the whitespace-free id `"xyz789"`. -/
theorem save_get_roundtrip_witness :
    get_last_processed_video_id (save_last_processed_video_id "xyz789") =
      some "xyz789" :=
  (save_get_roundtrip "xyz789").2 (by decide) (by decide)

end YoutubeXBot
